import Mathlib

/-
Verification of the vBot form-autofill engine (src/extension/content.ts,
the complete version with image upload capabilities).

The content script is a class VintedAutofiller acting on a foreign DOM.
We shallow-embed it: DOM state becomes explicit records, async effects
become pure state passing, thrown exceptions become Except results, and
the environment (which fields the page exposes, which upload techniques
the host widget accepts, which image fetches succeed) becomes explicit
parameters.  Every definition mirrors the control flow of the named
source function; cosmetic effects (element highlighting, console logging)
are noted in comments and dropped.
-/

namespace VBot

/-- Models the JavaScript test needle-is-a-substring-of-hay, that is
String.prototype.includes, on the underlying character lists. -/
def listIsPrefix : List Char → List Char → Bool
  | [], _ => true
  | _ :: _, [] => false
  | a :: as, b :: bs => a == b && listIsPrefix as bs

/-- Substring containment over character lists: the needle occurs
contiguously somewhere in the hay. -/
def listIsSub (needle : List Char) : List Char → Bool
  | [] => listIsPrefix needle []
  | b :: bs => listIsPrefix needle (b :: bs) || listIsSub needle bs

/-- Models hay.includes needle from JavaScript. -/
def strIncludes (hay needle : String) : Bool :=
  listIsSub needle.data hay.data

/-- Models String.prototype.toLowerCase (character-wise, which covers the
ASCII vocabulary this engine handles). -/
def lowerStr (s : String) : String :=
  String.mk (s.data.map Char.toLower)

/-- Models String.prototype.startsWith. -/
def strStarts (s pre : String) : Bool :=
  listIsPrefix pre.data s.data

/-- Return value of a JavaScript function as observed by its caller:
either undefined (a void function) or a boolean. -/
inductive RetVal
  | undef
  | bool (b : Bool)
deriving DecidableEq

/-- A dispatched DOM event: its name and whether it bubbles. -/
structure EventRec where
  name : String
  bubbles : Bool
deriving DecidableEq

/-
Value Injector: fillInputField and fillTextareaField
(src/extension/content.ts lines 632 to 680).

The element is modelled with its value, focus and selection state, and a
flag recording whether the host framework has overridden the own-property
value setter (such an overridden setter swallows plain assignments).  The
source obtains the value setter by reflection on
window.HTMLInputElement.prototype (resp. HTMLTextAreaElement.prototype);
protoHasValueSetter records whether that reflection found a setter - in a
browser it always does, and the source falls back to the plain property
assignment otherwise.
-/

structure InputEl where
  value : String
  focused : Bool
  selectedAll : Bool
  ownSetterOverridden : Bool
deriving DecidableEq

/-- The native prototype value setter: writes the underlying value
unconditionally, bypassing any instance-level override. -/
def nativeValueSetter (el : InputEl) (v : String) : InputEl :=
  ⟨v, el.focused, el.selectedAll, el.ownSetterOverridden⟩

/-- The plain element.value assignment: intercepted (here: swallowed) when
the framework has overridden the own-property setter. -/
def ownPropertySetter (el : InputEl) (v : String) : InputEl :=
  if el.ownSetterOverridden then el else ⟨v, el.focused, el.selectedAll, el.ownSetterOverridden⟩

structure FillOutcome where
  el : InputEl
  events : List EventRec
deriving DecidableEq

/-- Mirrors VintedAutofiller.fillInputField: focus, select, assign through
the prototype value setter when reflection found one (else plain
assignment), then dispatch input, change, blur, each bubbling.  The
final highlightElement call is cosmetic and omitted. -/
def fillInputField (protoHasValueSetter : Bool) (el : InputEl) (v : String) : FillOutcome :=
  let focused : InputEl := ⟨el.value, true, true, el.ownSetterOverridden⟩
  let written :=
    if protoHasValueSetter then nativeValueSetter focused v else ownPropertySetter focused v
  ⟨written, [⟨("input"), true⟩, ⟨("change"), true⟩, ⟨("blur"), true⟩]⟩

/-- Mirrors VintedAutofiller.fillTextareaField, which is textually the
same procedure against HTMLTextAreaElement.prototype. -/
def fillTextareaField (protoHasValueSetter : Bool) (el : InputEl) (v : String) : FillOutcome :=
  let focused : InputEl := ⟨el.value, true, true, el.ownSetterOverridden⟩
  let written :=
    if protoHasValueSetter then nativeValueSetter focused v else ownPropertySetter focused v
  ⟨written, [⟨("input"), true⟩, ⟨("change"), true⟩, ⟨("blur"), true⟩]⟩

/-
Option Resolver: setSelectValue and clickDropdownOption
(src/extension/content.ts lines 682 to 729).
-/

/-- An option element of a native select: visible label and value. -/
structure OptionEl where
  text : String
  value : String
deriving DecidableEq

/-- Mirrors the matching predicate of setSelectValue:
opt.text.toLowerCase().includes(v.toLowerCase()) or the same on opt.value. -/
def optMatches (o : OptionEl) (syn : String) : Bool :=
  strIncludes (lowerStr o.text) (lowerStr syn) || strIncludes (lowerStr o.value) (lowerStr syn)

structure SelectEl where
  options : List OptionEl
  value : String
deriving DecidableEq

structure SelectOutcome where
  el : SelectEl
  events : List EventRec
  ret : RetVal
deriving DecidableEq

/-- Mirrors VintedAutofiller.setSelectValue: iterate the preferred values
in order; for each, find the first option matching it; on the first hit
assign the option value, dispatch a bubbling change event and return.
With no hit the function only logs.  The source function has return type
Promise of void, so its resolution value is undefined. -/
def setSelectValue (el : SelectEl) : List String → SelectOutcome
  | [] => ⟨el, [], RetVal.undef⟩
  | v :: rest =>
    match el.options.find? (fun o => optMatches o v) with
    | some o => ⟨⟨el.options, o.value⟩, [⟨("change"), true⟩], RetVal.undef⟩
    | none => setSelectValue el rest

/-- The options revealed after clicking a custom dropdown, one list per
option selector of clickDropdownOption (only the text content matters). -/
structure DropdownPage where
  groups : List (List String)
deriving DecidableEq

structure DropdownOutcome where
  clickedOption : Option String
  clickedBody : Bool
  ret : RetVal
deriving DecidableEq

/-- Matching pass of clickDropdownOption inside one selector group:
preferred values in order, options inner, text lowered on both sides. -/
def pickOption (opts : List String) : List String → Option String
  | [] => none
  | p :: rest =>
    match opts.find? (fun t => strIncludes (lowerStr t) (lowerStr p)) with
    | some t => some t
    | none => pickOption opts rest

/-- Mirrors VintedAutofiller.clickDropdownOption: open the widget, settle,
then per option selector run the synonym-priority match and click the
first hit; when every group is exhausted, click the document body to
close the dropdown and log.  Return type is Promise of void. -/
def clickDropdownOption (page : DropdownPage) (prefs : List String) : DropdownOutcome :=
  match page.groups.findSome? (fun g => pickOption g prefs) with
  | some t => ⟨some t, false, RetVal.undef⟩
  | none => ⟨none, true, RetVal.undef⟩

/-
Image Uploader: dataUrlToFile, uploadImages, tryUploadMethods and the
three strategy functions (src/extension/content.ts lines 224 to 449).

The DOM environment of one upload run is a record of booleans: whether a
file input is found, whether direct assignment to it sticks (the source
verifies this by re-reading files.length after the assignment), whether a
drop zone element is present, and whether the clipboard write succeeds.
fetchOk says which data or blob URLs can be fetched and decoded.
-/

structure UploadEnv where
  fileInputFound : Bool
  fileInputAccepts : Bool
  dropZonePresent : Bool
  clipboardWrites : Bool
  fetchOk : String → Bool

structure PhotoData where
  id : String
  filename : String
  dataUrl : String
deriving DecidableEq

/-- A converted File object; only the name matters to the model. -/
structure FileObj where
  name : String
deriving DecidableEq

/-- In-page status indicator updates (showLoadingMessage,
showSuccessMessage, showErrorMessage, showClipboardInstruction). -/
inductive Indicator
  | loading (msg : String)
  | success (msg : String)
  | failure (msg : String)
  | clipboardNote
deriving DecidableEq

/-- Mirrors VintedAutofiller.dataUrlToFile: a blob or data URL is fetched
and wrapped in a File; any other prefix throws inside the try block; the
catch clause turns every failure, fetch errors included, into the single
message given below. -/
def dataUrlToFile (fetchOk : String → Bool) (dataUrl filename : String) : Except String FileObj :=
  if strStarts dataUrl ("blob:") || strStarts dataUrl ("data:") then
    if fetchOk dataUrl then Except.ok ⟨filename⟩
    else Except.error ("Failed to convert image data")
  else Except.error ("Failed to convert image data")

/-- Models the Promise.all over photos.map dataUrlToFile in uploadImages:
the first rejection, in order, rejects the whole batch. -/
def convertAll (fetchOk : String → Bool) : List PhotoData → Except String (List FileObj)
  | [] => Except.ok []
  | p :: ps =>
    match dataUrlToFile fetchOk p.dataUrl p.filename with
    | Except.error e => Except.error e
    | Except.ok f =>
      match convertAll fetchOk ps with
      | Except.error e => Except.error e
      | Except.ok fs => Except.ok (f :: fs)

/-- Strategy 1, uploadViaFileInput: assign a DataTransfer file list to the
input, dispatch change and input, wait, then re-read files.length; a zero
count means the host silently ignored the assignment and the strategy
throws. -/
def uploadViaFileInput (env : UploadEnv) : Except String Unit :=
  if env.fileInputAccepts then Except.ok ()
  else Except.error ("Direct file input upload failed")

/-- Strategy 2, uploadViaDragDrop: locate a drop zone by its own selector
list and dispatch dragenter, dragover, drop with the file payload; with no
drop zone present the strategy throws, otherwise it completes. -/
def uploadViaDragDrop (env : UploadEnv) : Except String Unit :=
  if env.dropZonePresent then Except.ok ()
  else Except.error ("Drop zone not found")

/-- Strategy 3, uploadViaClipboard: write the first image to the system
clipboard and show the manual-paste instruction; a failed clipboard write
throws.  The instruction indicator is the only user-visible trace. -/
def uploadViaClipboard (env : UploadEnv) : Except String Unit × List Indicator :=
  if env.clipboardWrites then (Except.ok (), [Indicator.clipboardNote])
  else (Except.error ("Clipboard upload preparation failed"), [])

/-- Attempted strategy numbers, indicator updates, and the result of
tryUploadMethods: ok true on the first strategy that succeeds, the error
of the last strategy when all three throw (the loop catches failures of
strategies 1 and 2 and rethrows only the failure of the last one; the
final return false of the source is unreachable). -/
structure TryResult where
  attempted : List Nat
  indicators : List Indicator
  result : Except String Bool

/-- Mirrors VintedAutofiller.tryUploadMethods. -/
def tryUploadMethods (env : UploadEnv) : TryResult :=
  match uploadViaFileInput env with
  | Except.ok _ => ⟨[1], [], Except.ok true⟩
  | Except.error _ =>
    match uploadViaDragDrop env with
    | Except.ok _ => ⟨[1, 2], [], Except.ok true⟩
    | Except.error _ =>
      match uploadViaClipboard env with
      | (Except.ok _, ind) => ⟨[1, 2, 3], ind, Except.ok true⟩
      | (Except.error e, ind) => ⟨[1, 2, 3], ind, Except.error e⟩

/-- Log of one uploadImages run: the File objects that reached the upload
strategies, the strategies attempted, the indicator updates in order, and
the overall result (rethrown to the message handler on error). -/
structure UploadRunLog where
  filesPassed : List FileObj
  attempted : List Nat
  indicators : List Indicator
  result : Except String Unit

/-- Mirrors VintedAutofiller.uploadImages: show the loading indicator,
convert every photo (Promise.all), find the file input, run the strategy
sequence, then show success, or on any thrown error show the failure
indicator and rethrow. -/
def uploadImages (env : UploadEnv) (photos : List PhotoData) : UploadRunLog :=
  let loading := Indicator.loading ("Uploading images...")
  match convertAll env.fetchOk photos with
  | Except.error e =>
    ⟨[], [], [loading, Indicator.failure (("Image upload failed: ") ++ e)], Except.error e⟩
  | Except.ok files =>
    if env.fileInputFound then
      match tryUploadMethods env with
      | ⟨att, ind, Except.ok true⟩ =>
        ⟨files, att, [loading] ++ ind ++ [Indicator.success ("Images uploaded successfully!")],
          Except.ok ()⟩
      | ⟨att, ind, Except.ok false⟩ =>
        ⟨files, att,
          [loading] ++ ind ++
            [Indicator.failure ("Image upload failed: All upload methods failed")],
          Except.error ("All upload methods failed")⟩
      | ⟨att, ind, Except.error e⟩ =>
        ⟨files, att, [loading] ++ ind ++ [Indicator.failure (("Image upload failed: ") ++ e)],
          Except.error e⟩
    else
      ⟨[], [],
        [loading, Indicator.failure ("Image upload failed: Photo upload input not found")],
        Except.error ("Photo upload input not found")⟩

/-- The structured acknowledgment sent back over the message channel. -/
structure Response where
  success : Bool
  error : Option String
deriving DecidableEq

/-- Response sent by handleMessage for an uploadImages request: success
true when the promise resolves, success false with the error message when
it rejects. -/
def uploadImagesResponse (env : UploadEnv) (photos : List PhotoData) : Response :=
  match (uploadImages env photos).result with
  | Except.ok _ => ⟨true, none⟩
  | Except.error e => ⟨false, some e⟩

/-
Autofill Orchestrator: waitForFormReady, autofillForm, the seven field
steps, and handleMessage (src/extension/content.ts lines 148 to 219,
454 to 555, 748 to 762).
-/

structure BookData where
  isbn : String
  title : String
  author : String
  publisher : String
  conditionPrimary : String
  price : ℚ
deriving DecidableEq

structure Settings where
  autoFillTitle : Bool
  autoFillDescription : Bool
  includeISBN : Bool
  useEmojis : Bool
  debugMode : Bool
deriving DecidableEq

/-- The page as the run observes it: whether the title field is findable
and visible at each readiness poll tick, and which fields findElement
resolves during the fill phase. -/
structure PageEnv where
  titleVisible : Nat → Bool
  titleField : Bool
  descriptionField : Bool
  categoryField : Bool
  brandField : Bool
  isbnField : Bool
  conditionField : Bool
  priceField : Bool

/-- Mirrors VintedAutofiller.waitForFormReady: poll for a visible title
field every 500 ms while the elapsed time is under 10000 ms, so the field
is checked at ticks 0 through 19; if no check succeeds the function
throws the message below. -/
def waitForFormReady (page : PageEnv) : Except String Unit :=
  if (List.range 20).any page.titleVisible then Except.ok ()
  else Except.error ("Form not ready within timeout period")

/-- Mirrors VintedAutofiller.fillTitle: skipped when the setting is off,
throws when the title field is not found, fills it otherwise. -/
def fillTitle (page : PageEnv) (settings : Settings) : Except String Unit :=
  if settings.autoFillTitle then
    if page.titleField then Except.ok () else Except.error ("Title field not found")
  else Except.ok ()

/-- Mirrors VintedAutofiller.fillDescription: skipped when the setting is
off, throws when the description field is not found. -/
def fillDescription (page : PageEnv) (settings : Settings) : Except String Unit :=
  if settings.autoFillDescription then
    if page.descriptionField then Except.ok () else Except.error ("Description field not found")
  else Except.ok ()

/-- Mirrors VintedAutofiller.setCategory: a missing selector or a missing
matching option is only logged, never thrown. -/
def setCategory (_page : PageEnv) : Except String Unit :=
  Except.ok ()

/-- Mirrors VintedAutofiller.fillBrand: skipped without a publisher; a
missing brand field is logged as optional, never thrown. -/
def fillBrand (_page : PageEnv) (_book : BookData) : Except String Unit :=
  Except.ok ()

/-- Mirrors VintedAutofiller.fillISBN: skipped without an ISBN; a missing
ISBN field is logged as optional, never thrown. -/
def fillISBN (_page : PageEnv) (_book : BookData) : Except String Unit :=
  Except.ok ()

/-- Mirrors VintedAutofiller.setCondition: a missing selector or option is
only logged, never thrown. -/
def setCondition (_page : PageEnv) (_book : BookData) : Except String Unit :=
  Except.ok ()

/-- Two-character zero padding of the cent remainder, as toFixed pads the
fraction to the requested number of digits (argument below 100). -/
def pad2 (k : Nat) : String :=
  String.mk [Char.ofNat (48 + k / 10), Char.ofNat (48 + k % 10)]

/-- The integer chosen by Number.prototype.toFixed with two fraction
digits: the nearest multiple of one hundredth, ties toward the larger
integer numerator. -/
def toFixed2Cents (x : ℚ) : Int :=
  Int.floor (x * 100 + 1 / 2)

/-- Models price.toFixed 2: sign, integer part, point, two fraction
digits. -/
def toFixed2 (x : ℚ) : String :=
  let n := toFixed2Cents x
  let m := n.natAbs
  (if n < 0 then ("-") else ("")) ++ toString (m / 100) ++ (".") ++ pad2 (m % 100)

/-- Outcome of the price step: whether findElement was reached at all,
and the field writes performed. -/
structure PriceFill where
  locateAttempted : Bool
  writes : List (String × String)
deriving DecidableEq

/-- Mirrors VintedAutofiller.fillPrice: the guard returns before any
element lookup when the price is falsy or nonpositive (the falsy case
adds only price equal to zero, which the nonpositive test already
covers); otherwise the price field, when found, receives
price.toFixed 2; a missing field is logged as optional. -/
def fillPrice (priceField : Bool) (price : ℚ) : PriceFill :=
  if price = 0 ∨ price ≤ 0 then ⟨false, []⟩
  else if priceField then ⟨true, [(("price"), toFixed2 price)]⟩
  else ⟨true, []⟩

/-- The price step as run by the orchestrator: fillPrice never throws. -/
def fillPriceStep (_page : PageEnv) (_book : BookData) : Except String Unit :=
  Except.ok ()

/-- Log of one autofillForm invocation combined with the response that
handleMessage sends for it: whether the form became ready, the result of
each executed field step in order (empty when the readiness wait threw,
since the steps are never reached), and the response (the then branch
sends success true, the catch branch success false with the message of
the rethrown error). -/
structure RunLog where
  ready : Bool
  stepResults : List (Except String Unit)
  response : Response

/-- Mirrors VintedAutofiller.autofillForm: wait for readiness, then run
the seven steps in the fixed order title, description, category, brand,
ISBN, condition, price, each wrapped in a try block that logs and
swallows its error; afterwards showSuccessMessage runs unconditionally
and the promise resolves, so handleMessage responds success true whenever
the form became ready. -/
def autofillForm (page : PageEnv) (book : BookData) (settings : Settings) : RunLog :=
  match waitForFormReady page with
  | Except.error e => ⟨false, [], ⟨false, some e⟩⟩
  | Except.ok _ =>
    ⟨true,
      [fillTitle page settings,
        fillDescription page settings,
        setCategory page,
        fillBrand page book,
        fillISBN page book,
        setCondition page book,
        fillPriceStep page book],
      ⟨true, none⟩⟩

/-
Cross-context message handling state (handleMessage, lines 148 to 177).
The class has fields isReady and debugMode only; nothing records whether
an autofill run is in flight.
-/

/-- Page-context state across messages: how many autofill runs are
currently in flight. -/
structure MsgState where
  runsInFlight : Nat
deriving DecidableEq

inductive MsgRequest
  | autofill (book : BookData) (settings : Settings)
  | upload (photos : List PhotoData)
  | other
deriving DecidableEq

/-- Effect of dispatching one message: the new state, whether a new
autofill run was started, and the response sent synchronously (none for
the async actions, whose response follows from the run itself). -/
structure Dispatch where
  state : MsgState
  startsAutofillRun : Bool
  immediate : Option Response
deriving DecidableEq

/-- Mirrors VintedAutofiller.handleMessage: an autofill request starts
autofillForm unconditionally - no branch inspects whether a run is
already in flight, so the count of concurrent runs simply grows; an
unknown action is answered synchronously with an error. -/
def handleMessage (s : MsgState) : MsgRequest → Dispatch
  | MsgRequest.autofill _ _ => ⟨⟨s.runsInFlight + 1⟩, true, none⟩
  | MsgRequest.upload _ => ⟨s, false, none⟩
  | MsgRequest.other => ⟨s, false, some ⟨false, some ("Unknown action")⟩⟩

/-- State reached after dispatching one message. -/
def stepMsg (s : MsgState) (r : MsgRequest) : MsgState :=
  (handleMessage s r).state

/-
Concrete fixtures used by witnesses and counterexamples.
-/

def someBook : BookData :=
  ⟨("9780441013593"), ("Dune"), ("Frank Herbert"), ("Ace"), ("good"), 9⟩

def someSettings : Settings := ⟨true, true, true, true, true⟩

/-- Page whose title field is visible throughout but whose description
field is absent; every other field resolves. -/
def pageDescMissing : PageEnv := ⟨fun _ => true, true, false, true, true, true, true, true⟩

/-- Page where every field resolves. -/
def pageAllFields : PageEnv := ⟨fun _ => true, true, true, true, true, true, true, true⟩

/-- Page whose title field never becomes visible. -/
def pageNeverReady : PageEnv := ⟨fun _ => false, false, false, false, false, false, false, false⟩

/-
Claim C1.  The spec asserts an aggregate outcome (Success, PartialSuccess
with failedFields, Failed) computed from the per-field results.  The code
computes no aggregate: each step error is caught and logged inside the
loop, showSuccessMessage always runs, and handleMessage answers success
true whenever the form became ready.
-/

/-- Claim C1 counterexample: with the title field present and the
description field absent, step 2 throws Description field not found, yet
the run responds with the unconditional success response (success true,
no error, no failedFields), not a PartialSuccess outcome. -/
theorem C1_counterexample :
    (autofillForm pageDescMissing someBook someSettings).response = ⟨true, none⟩ ∧
    (autofillForm pageDescMissing someBook someSettings).stepResults =
      [Except.ok (), Except.error ("Description field not found"), Except.ok (), Except.ok (),
        Except.ok (), Except.ok (), Except.ok ()] :=
  ⟨rfl, rfl⟩

/-- Claim C1 (amended): for every run in which the form becomes ready,
the orchestrator reports success true with no error, regardless of which
per-field steps failed; no aggregate outcome is computed. -/
theorem C1_ready_always_success (page : PageEnv) (book : BookData) (settings : Settings)
    (h : (List.range 20).any page.titleVisible = true) :
    (autofillForm page book settings).response = ⟨true, none⟩ := by
  simp [autofillForm, waitForFormReady, h]

/-- Claim C1 witness: the amended theorem applied to the page with all
fields present. -/
theorem C1_witness :
    (autofillForm pageAllFields someBook someSettings).response = ⟨true, none⟩ :=
  C1_ready_always_success pageAllFields someBook someSettings (by decide)

/-
Claim C2.  When the title field never becomes visible during the bounded
poll, waitForFormReady throws before the step loop, so the run fails and
no field step is attempted.
-/

/-- Claim C2: for every run whose title field is visible at none of the
twenty poll ticks (500 ms apart under the 10 s cap), the run terminates
as a failure whose reason is the form-not-ready message (which contains
the phrase form not ready, case-insensitively), and the list of executed
field steps is empty. -/
theorem C2_form_never_ready (page : PageEnv) (book : BookData) (settings : Settings)
    (h : ∀ k, k < 20 → page.titleVisible k = false) :
    autofillForm page book settings =
      ⟨false, [], ⟨false, some ("Form not ready within timeout period")⟩⟩ ∧
    strIncludes (lowerStr ("Form not ready within timeout period")) ("form not ready") = true := by
  have hany : (List.range 20).any page.titleVisible = false := by
    rw [Bool.eq_false_iff]
    intro hc
    rw [List.any_eq_true] at hc
    obtain ⟨k, hk, hv⟩ := hc
    rw [List.mem_range] at hk
    rw [h k hk] at hv
    exact absurd hv (by decide)
  constructor
  · simp [autofillForm, waitForFormReady, hany]
  · decide

/-- Claim C2 witness: the theorem applied to the page that never shows a
title field. -/
theorem C2_witness :
    autofillForm pageNeverReady someBook someSettings =
      ⟨false, [], ⟨false, some ("Form not ready within timeout period")⟩⟩ ∧
    strIncludes (lowerStr ("Form not ready within timeout period")) ("form not ready") = true :=
  C2_form_never_ready pageNeverReady someBook someSettings (fun _ _ => rfl)

/-
Claim C3.  The injector writes through the prototype value setter found
by reflection and then dispatches input, change, blur, bubbling.
-/

/-- Claim C3: for every element and text value, fillInputField and
fillTextareaField (run in a browser, where reflection on the prototype
finds the native value setter) write the value through that native setter
- the element value becomes the injected text even when the instance
own-property setter is framework-overridden - and then dispatch exactly
input, change, blur, in that order, all bubbling. -/
theorem C3_native_setter_event_sequence (el : InputEl) (v : String) :
    fillInputField true el v =
      ⟨⟨v, true, true, el.ownSetterOverridden⟩,
        [⟨("input"), true⟩, ⟨("change"), true⟩, ⟨("blur"), true⟩]⟩ ∧
    fillTextareaField true el v =
      ⟨⟨v, true, true, el.ownSetterOverridden⟩,
        [⟨("input"), true⟩, ⟨("change"), true⟩, ⟨("blur"), true⟩]⟩ :=
  ⟨rfl, rfl⟩

/-
Claim C4.  Synonym rank dominates option position in setSelectValue, and
matching is case-insensitive substring containment.
-/

/-- Options of the spec example. -/
def condSelect : SelectEl :=
  ⟨[⟨("Poor"), ("poor")⟩, ⟨("Good"), ("good")⟩, ⟨("Very good"), ("very-good")⟩,
      ⟨("Brand new"), ("brand-new")⟩], ("")⟩

/-- Options where the second-ranked synonym sits at an earlier position,
separating rank-first from position-first strategies. -/
def rankSelect : SelectEl :=
  ⟨[⟨("Excellent"), ("excellent")⟩, ⟨("Very good"), ("very-good")⟩], ("")⟩

/-- Option whose label differs from the synonym only by case. -/
def caseSelect : SelectEl := ⟨[⟨("VERY GOOD"), ("vg")⟩], ("")⟩

def specSyns : List String := [("Very good"), ("Excellent")]

/-- Claim C4: whenever any option matches the first synonym, the
selection is fully determined by the first synonym - the first option
matching it is chosen and later synonyms are never consulted; on the spec
example the option Very good is selected; on rankSelect the first-ranked
synonym wins over the earlier-positioned option matching the second
synonym; matching is case-insensitive. -/
theorem C4_synonym_rank_dominates :
    (∀ (el : SelectEl) (s : String) (rest : List String) (o : OptionEl),
        el.options.find? (fun q => optMatches q s) = some o →
        setSelectValue el (s :: rest) =
          ⟨⟨el.options, o.value⟩, [⟨("change"), true⟩], RetVal.undef⟩) ∧
    (setSelectValue condSelect specSyns).el.value = ("very-good") ∧
    (setSelectValue rankSelect specSyns).el.value = ("very-good") ∧
    (setSelectValue caseSelect [("very good")]).el.value = ("vg") := by
  refine ⟨?_, by decide, by decide, by decide⟩
  intro el s rest o h
  simp [setSelectValue, h]

/-- Claim C4 witness: the dominance part applied to the spec example. -/
theorem C4_witness :
    setSelectValue condSelect (("Very good") :: [("Excellent")]) =
      ⟨⟨condSelect.options, ("very-good")⟩, [⟨("change"), true⟩], RetVal.undef⟩ :=
  C4_synonym_rank_dominates.1 condSelect ("Very good") [("Excellent")]
    ⟨("Very good"), ("very-good")⟩ (by decide)

/-
Claim C5.  Upload strategies run in the fixed order 1, 2, 3, first
success wins, exhaustion is a hard failure.
-/

def somePhoto : PhotoData := ⟨("p1"), ("front.jpg"), ("data:image/jpeg;base64,ok")⟩

/-- Environment in which every strategy is rejected by the host page. -/
def allFailEnv : UploadEnv := ⟨true, false, false, false, fun _ => true⟩

/-- Claim C5: when direct file-input assignment sticks (files.length
nonzero on re-read), only strategy 1 runs; when the input silently
ignores the assignment and a drop zone is present, strategy 2 runs next
and wins; when all three strategies are rejected, the last error is
rethrown and the whole upload operation fails hard, surfacing success
false to the caller. -/
theorem C5_strategy_order (f d c : Bool) (fo : String → Bool) :
    tryUploadMethods ⟨f, true, d, c, fo⟩ = ⟨[1], [], Except.ok true⟩ ∧
    tryUploadMethods ⟨f, false, true, c, fo⟩ = ⟨[1, 2], [], Except.ok true⟩ ∧
    tryUploadMethods ⟨f, false, false, false, fo⟩ =
      ⟨[1, 2, 3], [], Except.error ("Clipboard upload preparation failed")⟩ ∧
    (uploadImages allFailEnv [somePhoto]).result =
      Except.error ("Clipboard upload preparation failed") ∧
    uploadImagesResponse allFailEnv [somePhoto] =
      ⟨false, some ("Clipboard upload preparation failed")⟩ :=
  ⟨rfl, rfl, rfl, rfl, rfl⟩

/-
Claim C6.  The spec requires a new autofill request during a run to be
rejected with an already-running error.  handleMessage has no such
branch: it starts autofillForm unconditionally, so concurrent runs are
reachable.
-/

/-- Claim C6 counterexample: with one run already in flight, a new
autofill request starts a second run (runsInFlight becomes 2) instead of
being rejected; dispatching two autofill messages from the idle state
reaches a state with two runs executing at once; and the synchronous
answer is not an already-running error. -/
theorem C6_counterexample :
    handleMessage ⟨1⟩ (MsgRequest.autofill someBook someSettings) = ⟨⟨2⟩, true, none⟩ ∧
    stepMsg (stepMsg ⟨0⟩ (MsgRequest.autofill someBook someSettings))
        (MsgRequest.autofill someBook someSettings) = ⟨2⟩ ∧
    (handleMessage ⟨1⟩ (MsgRequest.autofill someBook someSettings)).immediate ≠
      some ⟨false, some ("already running")⟩ :=
  ⟨rfl, rfl, by simp [handleMessage]⟩

/-- Claim C6 (amended): for every state, even one with runs already in
flight, an autofill request is never rejected - handleMessage starts a
new run unconditionally and answers nothing synchronously, so the number
of concurrent runs grows without bound. -/
theorem C6_no_concurrency_guard (s : MsgState) (b : BookData) (st : Settings) :
    handleMessage s (MsgRequest.autofill b st) = ⟨⟨s.runsInFlight + 1⟩, true, none⟩ :=
  rfl

/-
Claim C7.  The spec asserts a conversion failure is fatal only for the
single photo.  The code converts the batch with one Promise.all, whose
rejection aborts uploadImages before any DOM interaction, so no photo of
the batch reaches the upload strategies.
-/

/-- Every error dataUrlToFile can produce carries the single conversion
failure message. -/
theorem dataUrlToFile_error_msg (fo : String → Bool) (u f e : String)
    (h : dataUrlToFile fo u f = Except.error e) : e = ("Failed to convert image data") := by
  unfold dataUrlToFile at h
  split at h
  · split at h
    · exact Except.noConfusion h
    · exact (Except.error.inj h).symm
  · exact (Except.error.inj h).symm

/-- If any photo of the batch fails to convert, the whole Promise.all
rejects with the conversion failure message. -/
theorem convertAll_error_of_mem (fo : String → Bool) (ps : List PhotoData)
    (h : ∃ p ∈ ps, ∃ e, dataUrlToFile fo p.dataUrl p.filename = Except.error e) :
    convertAll fo ps = Except.error ("Failed to convert image data") := by
  induction ps with
  | nil =>
    obtain ⟨p, hp, _⟩ := h
    exact absurd hp (List.not_mem_nil p)
  | cons q ps ih =>
    unfold convertAll
    cases hc : dataUrlToFile fo q.dataUrl q.filename with
    | error e2 =>
      rw [dataUrlToFile_error_msg fo q.dataUrl q.filename e2 hc]
    | ok f =>
      obtain ⟨p, hp, e, he⟩ := h
      rcases List.mem_cons.mp hp with h1 | h2
      · subst h1
        rw [hc] at he
        exact Except.noConfusion he
      · rw [ih ⟨p, h2, e, he⟩]

/-- Claim C7 (amended): a conversion failure in any photo of the batch
aborts the entire uploadImages run before any DOM interaction - no File
object is passed on and no upload strategy is attempted - and the run
fails with the conversion failure message, which is distinct from the
missing-upload-target message and from the error surfaced when all
strategies are exhausted. -/
theorem C7_conversion_failure_aborts_batch (env : UploadEnv) (ps : List PhotoData)
    (h : ∃ p ∈ ps, ∃ e, dataUrlToFile env.fetchOk p.dataUrl p.filename = Except.error e) :
    (uploadImages env ps).result = Except.error ("Failed to convert image data") ∧
    (uploadImages env ps).filesPassed = [] ∧
    (uploadImages env ps).attempted = [] ∧
    ("Failed to convert image data") ≠ ("Photo upload input not found") ∧
    ("Failed to convert image data") ≠ ("Clipboard upload preparation failed") := by
  have hconv := convertAll_error_of_mem env.fetchOk ps h
  refine ⟨?_, ?_, ?_, by decide, by decide⟩ <;> simp [uploadImages, hconv]

def badPhoto : PhotoData := ⟨("p0"), ("back.jpg"), ("data:image/jpeg;base64,broken")⟩

def goodPhoto : PhotoData := ⟨("p2"), ("spine.jpg"), ("data:image/jpeg;base64,ok")⟩

/-- Environment in which only the good data URL is fetchable; everything
in the DOM would cooperate. -/
def convEnv : UploadEnv :=
  ⟨true, true, true, true, fun u => u == ("data:image/jpeg;base64,ok")⟩

/-- Claim C7 counterexample: with a batch of one unreadable photo
followed by one readable photo, the run rejects with the conversion
failure message and the remaining photo is neither passed on nor
uploaded - no strategy is attempted - contradicting that the failure is
fatal only for the single photo. -/
theorem C7_counterexample :
    (uploadImages convEnv [badPhoto, goodPhoto]).result =
      Except.error ("Failed to convert image data") ∧
    (uploadImages convEnv [badPhoto, goodPhoto]).filesPassed = [] ∧
    (uploadImages convEnv [badPhoto, goodPhoto]).attempted = [] :=
  ⟨rfl, rfl, rfl⟩

/-- Claim C7 witness: the amended theorem applied to a batch whose second
photo is unreadable. -/
theorem C7_witness :
    (uploadImages convEnv [goodPhoto, badPhoto]).result =
      Except.error ("Failed to convert image data") ∧
    (uploadImages convEnv [goodPhoto, badPhoto]).filesPassed = [] ∧
    (uploadImages convEnv [goodPhoto, badPhoto]).attempted = [] ∧
    ("Failed to convert image data") ≠ ("Photo upload input not found") ∧
    ("Failed to convert image data") ≠ ("Clipboard upload preparation failed") :=
  C7_conversion_failure_aborts_batch convEnv [goodPhoto, badPhoto]
    ⟨badPhoto, by decide, ⟨("Failed to convert image data"), rfl⟩⟩

/-
Claim C8.  The spec requires a clipboard-staged upload to be surfaced
distinctly from a full automation success.  The code returns true from
tryUploadMethods for strategy 3 exactly as for strategies 1 and 2,
uploadImages then shows the generic success indicator (overwriting the
clipboard instruction) and handleMessage answers the same success true.
-/

/-- Environment where only the clipboard strategy works. -/
def clipboardEnv : UploadEnv := ⟨true, false, false, true, fun _ => true⟩

/-- Environment where direct file-input assignment works. -/
def directEnv : UploadEnv := ⟨true, true, true, true, fun _ => true⟩

/-- Claim C8 counterexample: an upload completed by clipboard staging is
reported to the caller as exactly the response of a strategy-1 full
automation success, and the last indicator shown to the user is the same
generic success message in both runs. -/
theorem C8_counterexample :
    uploadImagesResponse clipboardEnv [somePhoto] = ⟨true, none⟩ ∧
    uploadImagesResponse clipboardEnv [somePhoto] = uploadImagesResponse directEnv [somePhoto] ∧
    (uploadImages clipboardEnv [somePhoto]).indicators =
      [Indicator.loading ("Uploading images..."), Indicator.clipboardNote,
        Indicator.success ("Images uploaded successfully!")] ∧
    (uploadImages clipboardEnv [somePhoto]).indicators.getLastD Indicator.clipboardNote =
      (uploadImages directEnv [somePhoto]).indicators.getLastD Indicator.clipboardNote :=
  ⟨rfl, rfl, rfl, rfl⟩

/-- Claim C8 (amended): for every batch whose conversions succeed, a run
that falls through to the clipboard strategy responds success true with
no error - the same response a strategy-1 run produces - and the only
distinct user-visible trace is the transient clipboard instruction, which
is immediately followed (overwritten) by the generic success indicator. -/
theorem C8_clipboard_reported_as_full_success (fo : String → Bool) (ps : List PhotoData)
    (files : List FileObj) (hconv : convertAll fo ps = Except.ok files) :
    uploadImagesResponse ⟨true, false, false, true, fo⟩ ps = ⟨true, none⟩ ∧
    uploadImagesResponse ⟨true, false, false, true, fo⟩ ps =
      uploadImagesResponse ⟨true, true, true, true, fo⟩ ps ∧
    (uploadImages ⟨true, false, false, true, fo⟩ ps).indicators =
      [Indicator.loading ("Uploading images..."), Indicator.clipboardNote,
        Indicator.success ("Images uploaded successfully!")] := by
  refine ⟨?_, ?_, ?_⟩ <;>
    simp [uploadImagesResponse, uploadImages, tryUploadMethods, uploadViaFileInput,
      uploadViaDragDrop, uploadViaClipboard, hconv]

/-- Claim C8 witness: the amended theorem applied to a one-photo batch
whose conversion succeeds. -/
theorem C8_witness :
    uploadImagesResponse ⟨true, false, false, true, fun _ => true⟩ [somePhoto] = ⟨true, none⟩ ∧
    uploadImagesResponse ⟨true, false, false, true, fun _ => true⟩ [somePhoto] =
      uploadImagesResponse ⟨true, true, true, true, fun _ => true⟩ [somePhoto] ∧
    (uploadImages ⟨true, false, false, true, fun _ => true⟩ [somePhoto]).indicators =
      [Indicator.loading ("Uploading images..."), Indicator.clipboardNote,
        Indicator.success ("Images uploaded successfully!")] :=
  C8_clipboard_reported_as_full_success (fun _ => true) [somePhoto] [⟨("front.jpg")⟩] rfl

/-
Claim C9.  The spec contract has selectOption return a boolean.  Both
widget paths are void functions: on an exhausted option set they leave
the selection untouched, but resolve with undefined, giving the caller no
failure signal.
-/

/-- With no synonym matching any option, setSelectValue runs off the end
of the preferred list: no assignment, no event, resolution value
undefined. -/
theorem setSelectValue_no_match (el : SelectEl) (syns : List String)
    (h : ∀ s ∈ syns, el.options.find? (fun o => optMatches o s) = none) :
    setSelectValue el syns = ⟨el, [], RetVal.undef⟩ := by
  induction syns with
  | nil => rfl
  | cons s rest ih =>
    have hs := h s (List.mem_cons_self s rest)
    unfold setSelectValue
    rw [hs]
    exact ih (fun t ht => h t (List.mem_cons_of_mem s ht))

/-- With no synonym matching in any selector group, clickDropdownOption
clicks no option; it clicks the document body to close the dropdown and
resolves with undefined. -/
theorem clickDropdownOption_no_match (page : DropdownPage) (prefs : List String)
    (h : ∀ g ∈ page.groups, pickOption g prefs = none) :
    clickDropdownOption page prefs = ⟨none, true, RetVal.undef⟩ := by
  unfold clickDropdownOption
  rw [List.findSome?_eq_none_iff.mpr h]

/-- Claim C9 (amended): for both widget kinds, when no option label or
value matches any synonym, the element selection is left unchanged (no
assignment, no change event, no option click), but the functions return
undefined - they are void - rather than false, so the caller receives no
failure signal. -/
theorem C9_no_match_leaves_selection (el : SelectEl) (syns : List String) (page : DropdownPage)
    (h1 : ∀ s ∈ syns, el.options.find? (fun o => optMatches o s) = none)
    (h2 : ∀ g ∈ page.groups, pickOption g syns = none) :
    setSelectValue el syns = ⟨el, [], RetVal.undef⟩ ∧
    clickDropdownOption page syns = ⟨none, true, RetVal.undef⟩ :=
  ⟨setSelectValue_no_match el syns h1, clickDropdownOption_no_match page syns h2⟩

def noMatchSelect : SelectEl := ⟨[⟨("Poor"), ("poor")⟩, ⟨("Good"), ("good")⟩], ("poor")⟩

def noMatchSyns : List String := [("Brand new"), ("Mint")]

def noMatchPage : DropdownPage := ⟨[[("Poor"), ("Good")]]⟩

/-- Claim C9 counterexample: on an exhausted option set the selection is
indeed unchanged and no event fires, but the resolution value is
undefined, not the boolean false the contract requires. -/
theorem C9_counterexample :
    (setSelectValue noMatchSelect noMatchSyns).el = noMatchSelect ∧
    (setSelectValue noMatchSelect noMatchSyns).events = [] ∧
    (setSelectValue noMatchSelect noMatchSyns).ret ≠ RetVal.bool false ∧
    (clickDropdownOption noMatchPage noMatchSyns).clickedOption = none ∧
    (clickDropdownOption noMatchPage noMatchSyns).ret ≠ RetVal.bool false :=
  ⟨rfl, rfl, by decide, rfl, by decide⟩

/-- Claim C9 witness: the amended theorem applied to the exhausted
fixtures. -/
theorem C9_witness :
    setSelectValue noMatchSelect noMatchSyns = ⟨noMatchSelect, [], RetVal.undef⟩ ∧
    clickDropdownOption noMatchPage noMatchSyns = ⟨none, true, RetVal.undef⟩ :=
  C9_no_match_leaves_selection noMatchSelect noMatchSyns noMatchPage (by decide) (by decide)

/-
Claim C10.  fillPrice returns before any element lookup when the price is
zero or negative; a positive price is written as price.toFixed 2, a
string with exactly two digits after the decimal point.
-/

/-- Claim C10: for every page and price, a nonpositive price (zero is a
valid record under the price-at-least-zero data model) makes fillPrice a
no-op - the element is never looked up and nothing is written, so the
field keeps its value - while a positive price with the field present
writes exactly toFixed2 of the price, whose rendering is the integer
part, a point, and the two-character padded cent remainder. -/
theorem C10_price_guard (present : Bool) (price : ℚ) :
    ((price = 0 ∨ price ≤ 0) → fillPrice present price = ⟨false, []⟩) ∧
    (0 < price →
      fillPrice true price = ⟨true, [(("price"), toFixed2 price)]⟩ ∧
      toFixed2 price =
        toString ((toFixed2Cents price).natAbs / 100) ++ (".") ++
          pad2 ((toFixed2Cents price).natAbs % 100) ∧
      (pad2 ((toFixed2Cents price).natAbs % 100)).length = 2) := by
  constructor
  · intro h
    simp [fillPrice, h]
  · intro hp
    have hne : ¬ (price = 0 ∨ price ≤ 0) := by
      push_neg
      exact ⟨ne_of_gt hp, hp⟩
    have h0 : (0 : Int) ≤ toFixed2Cents price := by
      unfold toFixed2Cents
      rw [Int.le_floor]
      push_cast
      nlinarith
    have hns : ¬ toFixed2Cents price < 0 := not_lt.mpr h0
    refine ⟨by simp [fillPrice, hne], ?_, rfl⟩
    simp [toFixed2, hns]

/-- Claim C10 witness: the theorem applied at price 0 (no-op) and at
price 9.5 (written as the string 9.50). -/
theorem C10_witness :
    fillPrice true (0 : ℚ) = ⟨false, []⟩ ∧
    fillPrice true ((19 : ℚ) / 2) = ⟨true, [(("price"), toFixed2 ((19 : ℚ) / 2))]⟩ ∧
    toFixed2 ((19 : ℚ) / 2) = ("9.50") := by
  have hc : toFixed2Cents ((19 : ℚ) / 2) = 950 := by
    unfold toFixed2Cents
    norm_num
  refine ⟨(C10_price_guard true 0).1 (Or.inl rfl),
    ((C10_price_guard true ((19 : ℚ) / 2)).2 (by norm_num)).1, ?_⟩
  rw [((C10_price_guard true ((19 : ℚ) / 2)).2 (by norm_num)).2.1, hc]
  decide

end VBot
